import Mathlib

/-!
# Shallow embedding of the Switch Pro controller driver

Source: `sammysswitchprodriver.cpp` (the neural-pipeline driver variant) and
the plain driver variant `switch_pro_driver.cpp` (namespace `V0` below).

Modelling conventions:
* `uint8_t` / `uint16_t` / `uint64_t` values are `ℕ`, with explicit `% 256`,
  masks, and wraparound (`u64sub`) where the C++ arithmetic overflows.
* `double` stick/trigger fields are exact rationals (`ℚ`); derived feature
  values (which involve `sqrt`) live in `ℝ`.
* A raw HID report is a `List ℕ` of byte values; `report[i]` is modelled by
  `List.getD report i 0` (all theorems below only evaluate reports at indices
  the C++ code reads in bounds).
* The host HID transport (`IOHIDDeviceSetReport`) is external: an operation
  that writes is modelled as returning the list of `(reportID, frame)` writes
  it performs, together with the host's reported write result.
-/

namespace SwitchPro

/-- Wrapping subtraction of two `uint64_t` values (C++ unsigned arithmetic):
for `a b < 2^64` this is `a - b` when `b ≤ a` and `2^64 - (b - a)` otherwise. -/
def u64sub (a b : ℕ) : ℕ :=
  (a + (2 ^ 64 - b % 2 ^ 64)) % 2 ^ 64

/-- The 14-byte rumble output frame built by `SwitchProController::rumble`:
`{0x10, 0x80, 0, 0, 0, hi&0xFF, hi>>8, lo&0xFF, lo>>8, 0, 0, 0, 0, 0}`.
The `static_cast<uint8_t>` of `x & 0xFF` is `x % 256`, and of `x >> 8` is
`x / 256 % 256`. -/
def encodeRumbleFrame (lowFreq highFreq : ℕ) : List ℕ :=
  [0x10, 0x80, 0x00, 0x00, 0x00,
   highFreq % 256, highFreq / 256 % 256,
   lowFreq % 256, lowFreq / 256 % 256,
   0x00, 0x00, 0x00, 0x00, 0x00]

/-- The 2-byte LED output frame built by `SwitchProController::setLEDPattern`:
`{0x01, pattern & 0x0F}`. -/
def encodeLEDFrame (pattern : ℕ) : List ℕ :=
  [0x01, pattern &&& 0x0F]

/-- Button-word decoding of `SwitchProController::processInputReport`
(lines 491–499 of the neural driver): each listed bit of status bytes 1 and 3
sets one bit of the 16-bit `currentState.buttons` word.  The comment labels
are the ones in the source. -/
def decodeButtons (b1 b3 : ℕ) : ℕ :=
  (if b1 &&& 0x01 ≠ 0 then 0x0001 else 0) |||  -- Y
  (if b1 &&& 0x02 ≠ 0 then 0x0002 else 0) |||  -- X
  (if b1 &&& 0x04 ≠ 0 then 0x0004 else 0) |||  -- B
  (if b1 &&& 0x08 ≠ 0 then 0x0008 else 0) |||  -- A
  (if b3 &&& 0x20 ≠ 0 then 0x0010 else 0) |||  -- L
  (if b1 &&& 0x40 ≠ 0 then 0x0020 else 0) |||  -- R
  (if b3 &&& 0x40 ≠ 0 then 0x0040 else 0) |||  -- ZL
  (if b1 &&& 0x80 ≠ 0 then 0x0080 else 0)      -- ZR

/-- The `struct ControllerState` of the neural driver.  Stick and trigger
`double`s are exact rationals; `buttons` is the 16-bit word; `timestamp` is
the `uint64_t` microsecond clock sample. -/
structure ControllerState where
  leftStickX : ℚ
  leftStickY : ℚ
  rightStickX : ℚ
  rightStickY : ℚ
  triggerL : ℚ
  triggerR : ℚ
  buttons : ℕ
  timestamp : ℕ
deriving DecidableEq

/-- Constructor initialisation `currentState = {0.5, 0.5, 0.5, 0.5, 0.0, 0.0, 0, 0}`. -/
def initialState : ControllerState :=
  ⟨1/2, 1/2, 1/2, 1/2, 0, 0, 0, 0⟩

/-- `SwitchProController::createFeatureVector`, with the function-local
`static uint64_t lastTimestamp` passed in explicitly (the caller threads it;
see `extractFeatures`).  Produces the 17-element feature vector:
4 stick axes, 2 triggers, 8 button flags (mask bits 0x0001..0x0080),
2 stick magnitudes, 1 time delta in seconds
(`lastTimestamp > 0 ? (timestamp - lastTimestamp)/1000000.0 : 0.0`,
the subtraction being wrapping `uint64_t` arithmetic). -/
noncomputable def createFeatureVector (s : ControllerState) (lastTimestamp : ℕ) : List ℝ :=
  [ (s.leftStickX : ℝ), (s.leftStickY : ℝ), (s.rightStickX : ℝ), (s.rightStickY : ℝ),
    (s.triggerL : ℝ), (s.triggerR : ℝ),
    (if s.buttons &&& 0x0001 ≠ 0 then (1 : ℝ) else 0),
    (if s.buttons &&& 0x0002 ≠ 0 then (1 : ℝ) else 0),
    (if s.buttons &&& 0x0004 ≠ 0 then (1 : ℝ) else 0),
    (if s.buttons &&& 0x0008 ≠ 0 then (1 : ℝ) else 0),
    (if s.buttons &&& 0x0010 ≠ 0 then (1 : ℝ) else 0),
    (if s.buttons &&& 0x0020 ≠ 0 then (1 : ℝ) else 0),
    (if s.buttons &&& 0x0040 ≠ 0 then (1 : ℝ) else 0),
    (if s.buttons &&& 0x0080 ≠ 0 then (1 : ℝ) else 0),
    Real.sqrt ((s.leftStickX : ℝ) * s.leftStickX + (s.leftStickY : ℝ) * s.leftStickY),
    Real.sqrt ((s.rightStickX : ℝ) * s.rightStickX + (s.rightStickY : ℝ) * s.rightStickY),
    (if 0 < lastTimestamp then ((u64sub s.timestamp lastTimestamp : ℕ) : ℝ) / 1000000 else 0) ]

/-- The queue update inside `SwitchProController::extractFeatures`:
`featureQueue.push(v); if (featureQueue.size() > 100) featureQueue.pop();`.
The queue is a list whose head is its oldest element. -/
def enqueueFeature {α : Type} (q : List α) (v : α) : List α :=
  let q2 := q ++ [v]
  if q2.length > 100 then q2.tail else q2

/-- The mutable members of `SwitchProController` that the claims touch:
the attached device handle (`connectedDevice`, `none` when disconnected),
the `processingEnabled` flag, the `currentState` sample, the `featureQueue`
(head = oldest), and `createFeatureVector`'s static `lastTimestamp`. -/
structure DriverState where
  connectedDevice : Option ℕ
  processingEnabled : Bool
  currentState : ControllerState
  featureQueue : List (List ℝ)
  lastTimestamp : ℕ

/-- The state after the `SwitchProController` constructor runs:
no device, processing disabled, `currentState` zero-initialised,
empty queue, static `lastTimestamp = 0`. -/
def initialDriver : DriverState :=
  ⟨none, false, initialState, [], 0⟩

/-- `SwitchProController::extractFeatures`: returns immediately when
`processingEnabled` is false; otherwise derives the feature vector from the
current state (also advancing the static `lastTimestamp`) and enqueues it
with the drop-oldest bound of 100. -/
noncomputable def extractFeatures (d : DriverState) : DriverState :=
  if d.processingEnabled = false then d
  else
    let features := createFeatureVector d.currentState d.lastTimestamp
    { d with
      featureQueue := enqueueFeature d.featureQueue features
      lastTimestamp := d.currentState.timestamp }

/-- `SwitchProController::processInputReport` (neural driver): ignores
reports shorter than 3 bytes; otherwise stamps `currentState.timestamp`
with the current clock (`now`, a parameter here since the clock is
external), decodes the button word from bytes 1 and 3, updates the left
stick from bytes 6 and 8 when `reportLength > 8` and the right stick from
bytes 10 and 12 when `reportLength > 12` (each byte divided by 255.0), and
finally calls `extractFeatures` on the updated state.  The trailing
console printing mutates nothing and is omitted. -/
noncomputable def processInputReport (d : DriverState) (report : List ℕ) (now : ℕ) :
    DriverState :=
  if report.length < 3 then d
  else
    let s0 := d.currentState
    let s1 := { s0 with
      timestamp := now
      buttons := decodeButtons (report.getD 1 0) (report.getD 3 0) }
    let s2 := if 8 < report.length then
        { s1 with
          leftStickX := (report.getD 6 0 : ℚ) / 255
          leftStickY := (report.getD 8 0 : ℚ) / 255 }
      else s1
    let s3 := if 12 < report.length then
        { s2 with
          rightStickX := (report.getD 10 0 : ℚ) / 255
          rightStickY := (report.getD 12 0 : ℚ) / 255 }
      else s2
    extractFeatures { d with currentState := s3 }

/-- `SwitchProController::enableNeuralProcessing`: sets the
`processingEnabled` flag (the thread start/join it also performs is
concurrency plumbing with no further effect on the modelled state). -/
def enableNeuralProcessing (d : DriverState) (enable : Bool) : DriverState :=
  { d with processingEnabled := enable }

/-- `SwitchProController::rumble`: when no device is attached it returns at
once (no write, no state change); otherwise it builds the rumble frame and
writes it with report ID 0x10 through the host transport, whose boolean
write result it observes (the success branch only prints).  Returns the
(unchanged) driver state, the writes performed, and the reported result. -/
def rumble (d : DriverState) (hostWrite : ℕ → ℕ → List ℕ → Bool)
    (lowFreq highFreq durationMs : ℕ) :
    DriverState × List (ℕ × List ℕ) × Option Bool :=
  match d.connectedDevice with
  | none => (d, [], none)
  | some dev =>
      let frame := encodeRumbleFrame lowFreq highFreq
      (d, [(0x10, frame)], some (hostWrite dev 0x10 frame))

/-- `SwitchProController::setLEDPattern`: when no device is attached it
returns at once; otherwise it writes the 2-byte LED frame with report
ID 0x01 through the host transport. -/
def setLEDPattern (d : DriverState) (hostWrite : ℕ → ℕ → List ℕ → Bool)
    (pattern : ℕ) :
    DriverState × List (ℕ × List ℕ) × Option Bool :=
  match d.connectedDevice with
  | none => (d, [], none)
  | some dev =>
      let frame := encodeLEDFrame pattern
      (d, [(0x01, frame)], some (hostWrite dev 0x01 frame))

/-- One iteration of the body of `SwitchProController::neuralProcessingLoop`:
pop the oldest feature vector if the queue is non-empty; if the popped
vector is non-empty, classify it with the neural engine (`classify`, an
external collaborator) and request a `rumble(0x30, 0x30, 50)` exactly when
the label is `GESTURE_DETECTED` (guarded, as in the source, by the label
being neither `NO_DATA` nor `PROCESSOR_NOT_READY`).  Returns the new
queue, the vector forwarded to the classifier (if any), and the rumble
request `(low, high, duration)` (if any). -/
def consumptionStep (q : List (List ℝ)) (classify : List ℝ → String) :
    List (List ℝ) × Option (List ℝ) × Option (ℕ × ℕ × ℕ) :=
  match q with
  | [] => ([], none, none)
  | f :: rest =>
      if f.isEmpty then (rest, none, none)
      else
        let result := classify f
        let signal : Option (ℕ × ℕ × ℕ) :=
          if result ≠ "NO_DATA" ∧ result ≠ "PROCESSOR_NOT_READY" then
            if result = "GESTURE_DETECTED" then some (0x30, 0x30, 50) else none
          else none
        (rest, some f, signal)

/-- Operations that drive the modelled mutable state: an input report
arriving at clock time `now`, or toggling the processing pipeline. -/
inductive DriverOp : Type
  | report (bytes : List ℕ) (now : ℕ)
  | setProcessing (enable : Bool)

/-- Apply one `DriverOp` to the driver state. -/
noncomputable def applyOp (d : DriverState) : DriverOp → DriverState
  | .report bytes now => processInputReport d bytes now
  | .setProcessing b => enableNeuralProcessing d b

/-- Run a sequence of operations from a starting state. -/
noncomputable def runOps (d : DriverState) (ops : List DriverOp) : DriverState :=
  ops.foldl applyOp d

/-- The projection of a feature vector onto its 8 button-flag elements
(indices 6..13). -/
noncomputable def buttonFlags (v : List ℝ) : List ℝ :=
  (List.range 8).map fun i => v.getD (6 + i) 0

/-- A 14-byte input report with every byte zero: no buttons pressed. -/
def rptNeutral : List ℕ := List.replicate 14 0

/-- A 14-byte input report whose status byte 1 is `0x0C = 0x08 | 0x04`,
the bits `processInputReport` decodes as A and B. -/
def rptAB : List ℕ := 0 :: 0x0C :: List.replicate 12 0

/-- The scripted end-to-end run: enable the pipeline, then deliver a
neutral report, an A+B report and a neutral report at clock times
1000, 2000, 3000. -/
noncomputable def c1Run : DriverState :=
  runOps initialDriver
    [.setProcessing true, .report rptNeutral 1000, .report rptAB 2000,
     .report rptNeutral 3000]

/-- A scripted run that restarts the pipeline: one sample at t = 1000000 µs,
then disable and re-enable processing, then one sample at t = 5000000 µs. -/
noncomputable def c8Run : DriverState :=
  runOps initialDriver
    [.setProcessing true, .report (List.replicate 4 0) 1000000,
     .setProcessing false, .setProcessing true,
     .report (List.replicate 4 0) 5000000]

/-! ## State invariant

Everything reachable from the freshly constructed driver keeps the queue
within its bound of 100, keeps the (never written) trigger fields at zero,
and only ever enqueues genuine 17-element feature vectors whose trigger
elements are zero. -/

/-- Invariant on the driver state preserved by every operation. -/
def DriverInv (d : DriverState) : Prop :=
  d.featureQueue.length ≤ 100 ∧
  d.currentState.triggerL = 0 ∧
  d.currentState.triggerR = 0 ∧
  ∀ v ∈ d.featureQueue, v.length = 17 ∧ v.getD 4 0 = 0 ∧ v.getD 5 0 = 0

lemma createFeatureVector_length (s : ControllerState) (last : ℕ) :
    (createFeatureVector s last).length = 17 := rfl

lemma createFeatureVector_getD4 (s : ControllerState) (last : ℕ) :
    (createFeatureVector s last).getD 4 0 = (s.triggerL : ℝ) := rfl

lemma createFeatureVector_getD5 (s : ControllerState) (last : ℕ) :
    (createFeatureVector s last).getD 5 0 = (s.triggerR : ℝ) := rfl

lemma enqueueFeature_length_le {α : Type} (q : List α) (v : α) (h : q.length ≤ 100) :
    (enqueueFeature q v).length ≤ 100 := by
  simp only [enqueueFeature]
  split
  · simp
    omega
  · next h2 => simp at h2 ⊢; omega

lemma enqueueFeature_mem {α : Type} {q : List α} {v w : α} (h : w ∈ enqueueFeature q v) :
    w ∈ q ∨ w = v := by
  simp only [enqueueFeature] at h
  split at h
  · simpa using List.mem_of_mem_tail h
  · simpa using h

lemma extractFeatures_inv {d : DriverState} (h : DriverInv d) :
    DriverInv (extractFeatures d) := by
  unfold extractFeatures
  split
  · exact h
  · refine ⟨enqueueFeature_length_le _ _ h.1, h.2.1, h.2.2.1, ?_⟩
    intro v hv
    rcases enqueueFeature_mem hv with hv' | rfl
    · exact h.2.2.2 v hv'
    · refine ⟨createFeatureVector_length _ _, ?_, ?_⟩
      · rw [createFeatureVector_getD4, h.2.1]; norm_num
      · rw [createFeatureVector_getD5, h.2.2.1]; norm_num

lemma processInputReport_inv {d : DriverState} (h : DriverInv d) (r : List ℕ) (t : ℕ) :
    DriverInv (processInputReport d r t) := by
  unfold processInputReport
  split
  · exact h
  · apply extractFeatures_inv
    refine ⟨h.1, ?_, ?_, h.2.2.2⟩ <;>
      · dsimp only
        split <;> split <;> first | exact h.2.1 | exact h.2.2.1

lemma applyOp_inv {d : DriverState} (h : DriverInv d) (op : DriverOp) :
    DriverInv (applyOp d op) := by
  cases op with
  | report r t => exact processInputReport_inv h r t
  | setProcessing b => exact ⟨h.1, h.2.1, h.2.2.1, h.2.2.2⟩

lemma runOps_inv {d : DriverState} (h : DriverInv d) (ops : List DriverOp) :
    DriverInv (runOps d ops) := by
  induction ops generalizing d with
  | nil => exact h
  | cons op rest ih => exact ih (applyOp_inv h op)

lemma initialDriver_inv : DriverInv initialDriver := by
  refine ⟨by simp [initialDriver], rfl, rfl, by simp [initialDriver]⟩

end SwitchPro

namespace V0

/-- The 8-direction-or-neutral D-pad value decoded by the plain driver's
`processInputReport` (the `dpad_states` glyph table `↑ ↗ → ↘ ↓ ↙ ← ↖ •`,
indexed by `buttons3 & 0x0F`, default index 8 = neutral). -/
inductive DPad : Type
  | up | upRight | right | downRight | down | downLeft | left | upLeft | neutral
deriving DecidableEq

/-- D-pad decoding of the plain driver: `dpad_state = buttons3 & 0x0F`;
indices 0–7 select the glyph table entries in order, anything else stays
at the neutral default. -/
def decodeDPad (b3 : ℕ) : DPad :=
  match b3 &&& 0x0F with
  | 0 => .up
  | 1 => .upRight
  | 2 => .right
  | 3 => .downRight
  | 4 => .down
  | 5 => .downLeft
  | 6 => .left
  | 7 => .upLeft
  | _ => .neutral

/-- The 14 logical button booleans the plain driver's `processInputReport`
decodes from status bytes 1–3. -/
structure ButtonSet where
  a : Bool
  b : Bool
  x : Bool
  y : Bool
  l : Bool
  r : Bool
  zl : Bool
  zr : Bool
  minus : Bool
  plus : Bool
  stickLeft : Bool
  stickRight : Bool
  home : Bool
  capture : Bool
deriving DecidableEq

/-- Button decoding of the plain driver (`y = b1 & 0x01`, …, `a = b1 & 0x08`,
`r = b1 & 0x40`, `zr = b1 & 0x80`, byte-2 system buttons, `l = b3 & 0x20`,
`zl = b3 & 0x40`). -/
def decodeButtonSet (b1 b2 b3 : ℕ) : ButtonSet where
  a := b1 &&& 0x08 != 0
  b := b1 &&& 0x04 != 0
  x := b1 &&& 0x02 != 0
  y := b1 &&& 0x01 != 0
  l := b3 &&& 0x20 != 0
  r := b1 &&& 0x40 != 0
  zl := b3 &&& 0x40 != 0
  zr := b1 &&& 0x80 != 0
  minus := b2 &&& 0x01 != 0
  plus := b2 &&& 0x02 != 0
  stickLeft := b2 &&& 0x04 != 0
  stickRight := b2 &&& 0x08 != 0
  home := b2 &&& 0x10 != 0
  capture := b2 &&& 0x20 != 0

/-- The decode phase of the plain driver's `processInputReport`: reports
shorter than 3 bytes are discarded (`none`); otherwise the button set and
D-pad are decoded from bytes 1–3. -/
def decodeReport (report : List ℕ) : Option (ButtonSet × DPad) :=
  if report.length < 3 then none
  else some (decodeButtonSet (report.getD 1 0) (report.getD 2 0) (report.getD 3 0),
             decodeDPad (report.getD 3 0))

end V0

/-!
## Claim theorems
-/

namespace V0

lemma decodeDPad_low_nibble (b3 : ℕ) : decodeDPad b3 = decodeDPad (b3 &&& 0x0F) := by
  unfold decodeDPad
  conv_rhs => rw [Nat.and_assoc, Nat.and_self]

lemma decodeDPad_neutral_of_ge8 (b3 : ℕ) (h : 8 ≤ b3 &&& 0x0F) :
    decodeDPad b3 = DPad.neutral := by
  have h15 : b3 &&& 0x0F ≤ 15 := Nat.and_le_right
  rw [decodeDPad_low_nibble]
  obtain ⟨k, hk⟩ : ∃ k, b3 &&& 0x0F = k := ⟨_, rfl⟩
  rw [hk] at h h15 ⊢
  interval_cases k <;> rfl

end V0

namespace SwitchPro

lemma createFeatureVector_getD16 (s : ControllerState) (last : ℕ) :
    (createFeatureVector s last).getD 16 0 =
      if 0 < last then ((u64sub s.timestamp last : ℕ) : ℝ) / 1000000 else 0 := rfl

/-- C1 counterexample: in the scripted three-report run, the feature vector
derived from the A+B report has 0 (not 1) at button-flag indices 6 and 7,
and 1 at indices 8 and 9 instead — the decoder routes the raw A and B bits
(0x08 and 0x04 of status byte 1) to state-word bits 0x0008 and 0x0004,
which `createFeatureVector` emits at indices 9 and 8. -/
theorem C1_counterexample :
    ((c1Run.featureQueue.getD 1 []).getD 6 0) ≠ 1 ∧
    ((c1Run.featureQueue.getD 1 []).getD 6 0) = 0 ∧
    ((c1Run.featureQueue.getD 1 []).getD 7 0) = 0 ∧
    ((c1Run.featureQueue.getD 1 []).getD 8 0) = 1 ∧
    ((c1Run.featureQueue.getD 1 []).getD 9 0) = 1 := by
  refine ⟨?_, ?_, ?_, ?_, ?_⟩ <;>
    · simp [c1Run, runOps, applyOp, processInputReport, extractFeatures,
        enableNeuralProcessing, enqueueFeature, initialDriver, rptNeutral, rptAB,
        createFeatureVector, decodeButtons, List.foldl, initialState]
      decide

/-- C1 (amended): feeding the three scripted raw reports (no buttons, then
A+B pressed, then neutral) through decode, feature derivation and enqueue
yields a queue of three feature vectors whose button-flag elements
(indices 6..13) are {0,0,0,0,0,0,0,0}, then {0,0,1,1,0,0,0,0} — the A and
B presses land on the flags at indices 8 and 9 (mask bits 0x0004, 0x0008),
not 6 and 7 — then {0,0,0,0,0,0,0,0}; and three consumption-loop dequeues
(for any classifier) pop exactly those three vectors in FIFO order,
leaving the queue empty. -/
theorem C1_pipeline_button_flags :
    c1Run.featureQueue.map buttonFlags =
      [[0, 0, 0, 0, 0, 0, 0, 0], [0, 0, 1, 1, 0, 0, 0, 0], [0, 0, 0, 0, 0, 0, 0, 0]] ∧
    ∀ classify : List ℝ → String,
      ((consumptionStep c1Run.featureQueue classify).2.1.map buttonFlags =
        some [0, 0, 0, 0, 0, 0, 0, 0]) ∧
      ((consumptionStep (consumptionStep c1Run.featureQueue classify).1 classify).2.1.map
        buttonFlags = some [0, 0, 1, 1, 0, 0, 0, 0]) ∧
      ((consumptionStep (consumptionStep (consumptionStep c1Run.featureQueue classify).1
        classify).1 classify).2.1.map buttonFlags = some [0, 0, 0, 0, 0, 0, 0, 0]) ∧
      (consumptionStep (consumptionStep (consumptionStep c1Run.featureQueue classify).1
        classify).1 classify).1 = [] := by
  constructor
  · simp [c1Run, runOps, applyOp, processInputReport, extractFeatures,
      enableNeuralProcessing, enqueueFeature, initialDriver, rptNeutral, rptAB,
      createFeatureVector, decodeButtons, List.foldl, initialState, buttonFlags,
      List.range_succ]
    decide
  · intro classify
    refine ⟨?_, ?_, ?_, ?_⟩ <;>
      · simp [c1Run, runOps, applyOp, processInputReport, extractFeatures,
          enableNeuralProcessing, enqueueFeature, initialDriver, rptNeutral, rptAB,
          createFeatureVector, decodeButtons, List.foldl, initialState, buttonFlags,
          List.range_succ, consumptionStep]
        try decide

/-- C2 counterexample: at the concrete input `(low, high) = (0, 0)` the
rumble frame has 14 bytes, not 13, and its byte 1 is the constant 0x80,
not a reserved zero — refuting the claimed 13-byte frame whose non-header,
non-frequency bytes are all zero. -/
theorem C2_counterexample :
    (encodeRumbleFrame 0 0).length ≠ 13 ∧ (encodeRumbleFrame 0 0).getD 1 0 ≠ 0 := by
  decide

/-- C2 (amended): for every pair of 16-bit frequencies the rumble frame has
exactly 14 bytes; byte 0 is the 0x10 rumble header, byte 1 is the constant
0x80, bytes 5–6 are the high-band frequency little-endian, bytes 7–8 are
the low-band frequency little-endian, bytes 2–4 and 9–13 are zero, and the
encoding is a pure, deterministic function of the frequencies. -/
theorem C2_encode_rumble (low high : ℕ) (hlow : low < 65536) (hhigh : high < 65536) :
    (encodeRumbleFrame low high).length = 14 ∧
    (encodeRumbleFrame low high).getD 0 0 = 0x10 ∧
    (encodeRumbleFrame low high).getD 1 0 = 0x80 ∧
    (encodeRumbleFrame low high).getD 2 0 = 0 ∧
    (encodeRumbleFrame low high).getD 3 0 = 0 ∧
    (encodeRumbleFrame low high).getD 4 0 = 0 ∧
    (encodeRumbleFrame low high).getD 5 0 + 256 * (encodeRumbleFrame low high).getD 6 0 = high ∧
    (encodeRumbleFrame low high).getD 7 0 + 256 * (encodeRumbleFrame low high).getD 8 0 = low ∧
    (∀ i, 9 ≤ i → i ≤ 13 → (encodeRumbleFrame low high).getD i 0 = 0) ∧
    encodeRumbleFrame low high = encodeRumbleFrame low high := by
  refine ⟨rfl, rfl, rfl, rfl, rfl, rfl, ?_, ?_, ?_, rfl⟩
  · simp [encodeRumbleFrame]; omega
  · simp [encodeRumbleFrame]; omega
  · intro i h9 h13
    interval_cases i <;> rfl

/-- C2 witness: the amended theorem instantiated at
`(low, high) = (0x1234, 0xABCD)`: bytes 5–6 reassemble to the high-band
frequency. -/
theorem C2_witness :
    (encodeRumbleFrame 0x1234 0xABCD).getD 5 0 + 256 * (encodeRumbleFrame 0x1234 0xABCD).getD 6 0
      = 0xABCD :=
  (C2_encode_rumble 0x1234 0xABCD (by norm_num) (by norm_num)).2.2.2.2.2.2.1

/-- C3 counterexample: a 4-byte report (shorter than 13 bytes) with status
byte 1 = 0x08 is NOT discarded: starting from the fresh driver with
processing enabled, processing it sets the button word to 8 and enqueues a
feature vector, refuting the claimed rejection with no state change of
every buffer shorter than 13 bytes. -/
theorem C3_counterexample :
    ({ initialDriver with processingEnabled := true } : DriverState).currentState.buttons = 0 ∧
    ({ initialDriver with processingEnabled := true } : DriverState).featureQueue.length = 0 ∧
    (processInputReport { initialDriver with processingEnabled := true }
        [0, 0x08, 0, 0] 5).currentState.buttons = 8 ∧
    (processInputReport { initialDriver with processingEnabled := true }
        [0, 0x08, 0, 0] 5).featureQueue.length = 1 := by
  refine ⟨rfl, rfl, ?_, ?_⟩ <;>
    · simp [processInputReport, extractFeatures, enqueueFeature, initialDriver, initialState,
          decodeButtons, createFeatureVector]
      try decide

/-- C3 (amended): only reports shorter than 3 bytes are discarded, and the
discard is silent — there is no error value; the function simply returns
with the driver state (current state, feature queue, everything) completely
unchanged and nothing enqueued.  Reports of length 3 to 12 are processed. -/
theorem C3_short_report_ignored (d : DriverState) (report : List ℕ) (now : ℕ)
    (h : report.length < 3) :
    processInputReport d report now = d := by
  unfold processInputReport
  simp [h]

/-- C3 witness: the amended theorem at the empty report. -/
theorem C3_witness : processInputReport initialDriver [] 0 = initialDriver :=
  C3_short_report_ignored initialDriver [] 0 (by simp)

/-- C4: the feature queue never exceeds 100 elements — locally (one enqueue
on any queue within the bound stays within the bound, and on a full queue
of 100 it evicts exactly the oldest element, keeping the remaining 100 in
FIFO order) and globally (every state reachable from the fresh driver by
any operation sequence has a queue of at most 100 elements).
`enqueueFeature` is a total function: it never blocks and never fails. -/
theorem C4_queue_bound (q : List (List ℝ)) (v : List ℝ) (h : q.length ≤ 100) :
    (enqueueFeature q v).length ≤ 100 ∧
    (q.length = 100 → enqueueFeature q v = q.tail ++ [v] ∧
      (enqueueFeature q v).length = 100) ∧
    ∀ ops, (runOps initialDriver ops).featureQueue.length ≤ 100 := by
  refine ⟨enqueueFeature_length_le q v h, ?_, fun ops => (runOps_inv initialDriver_inv ops).1⟩
  intro h100
  cases q with
  | nil => simp at h100
  | cons a q' =>
      constructor
      · simp only [enqueueFeature]
        rw [if_pos (by simp at h100 ⊢; omega)]
        simp
      · apply le_antisymm (enqueueFeature_length_le _ _ h)
        simp only [enqueueFeature]
        rw [if_pos (by simp at h100 ⊢; omega)]
        simp at h100 ⊢
        omega

/-- C4 witness: the theorem applied to a concrete full queue of 100 vectors. -/
theorem C4_witness :
    (enqueueFeature (List.replicate 100 ([] : List ℝ)) []).length ≤ 100 :=
  (C4_queue_bound (List.replicate 100 []) [] (by simp)).1

/-- C5: `rumble` and `setLEDPattern` are no-ops when no device handle is
attached — no host write happens and the driver state is returned
unchanged; when a device is attached they encode the command frame, write
it through the host transport with the matching report ID, and report the
host's write result. -/
theorem C5_commands_require_connection (d : DriverState)
    (hostWrite : ℕ → ℕ → List ℕ → Bool) (low high dur pattern : ℕ) :
    (d.connectedDevice = none →
      rumble d hostWrite low high dur = (d, [], none) ∧
      setLEDPattern d hostWrite pattern = (d, [], none)) ∧
    (∀ dev, d.connectedDevice = some dev →
      rumble d hostWrite low high dur =
        (d, [(0x10, encodeRumbleFrame low high)],
          some (hostWrite dev 0x10 (encodeRumbleFrame low high))) ∧
      setLEDPattern d hostWrite pattern =
        (d, [(0x01, encodeLEDFrame pattern)],
          some (hostWrite dev 0x01 (encodeLEDFrame pattern)))) := by
  constructor
  · intro hnone
    constructor
    · unfold rumble; rw [hnone]
    · unfold setLEDPattern; rw [hnone]
  · intro dev hdev
    constructor
    · unfold rumble; rw [hdev]
    · unfold setLEDPattern; rw [hdev]

/-- C5 witness: the fresh driver is disconnected, so `rumble` performs no
write and changes nothing. -/
theorem C5_witness :
    rumble initialDriver (fun _ _ _ => true) 0x30 0x30 50 = (initialDriver, [], none) :=
  ((C5_commands_require_connection initialDriver (fun _ _ _ => true) 0x30 0x30 50 0).1 rfl).1

/-- C6: a consumption step on the empty queue pops nothing, forwards
nothing to the classifier, emits no signal, and is a normal (non-error)
outcome; on a non-empty queue it pops exactly the oldest vector, forwards
it to the classifier, and requests the `(0x30, 0x30, 50 ms)` haptic rumble
exactly when the returned label is `GESTURE_DETECTED` (any other label
produces no signal).  The hypothesis that the popped vector is non-empty
holds for every vector the pipeline can ever enqueue (they all have 17
elements), as the final conjunct shows. -/
theorem C6_consumption_step (classify : List ℝ → String) (f : List ℝ)
    (rest : List (List ℝ)) (hf : f ≠ []) :
    consumptionStep [] classify = ([], none, none) ∧
    (consumptionStep (f :: rest) classify).1 = rest ∧
    (consumptionStep (f :: rest) classify).2.1 = some f ∧
    ((consumptionStep (f :: rest) classify).2.2 = some (0x30, 0x30, 50) ↔
      classify f = "GESTURE_DETECTED") ∧
    ∀ ops, ∀ v ∈ (runOps initialDriver ops).featureQueue, v ≠ [] := by
  have hemp : f.isEmpty = false := by simpa [List.isEmpty_iff] using hf
  refine ⟨rfl, ?_, ?_, ?_, ?_⟩
  · simp [consumptionStep, hemp]
  · simp [consumptionStep, hemp]
  · by_cases hg : classify f = "GESTURE_DETECTED"
    · simp [consumptionStep, hemp, hg]
    · simp [consumptionStep, hemp, hg]
  · intro ops v hv
    have h17 := ((runOps_inv initialDriver_inv ops).2.2.2 v hv).1
    intro hnil
    rw [hnil] at h17
    simp at h17

/-- C6 witness: a singleton queue whose vector classifies as a detected
gesture yields exactly the haptic request. -/
theorem C6_witness :
    (consumptionStep [[(0 : ℝ)]] (fun _ => "GESTURE_DETECTED")).2.2 = some (0x30, 0x30, 50) :=
  (C6_consumption_step (fun _ => "GESTURE_DETECTED") [(0 : ℝ)] [] (by simp)).2.2.2.1.mpr rfl

end SwitchPro

/-- C7: the plain driver's D-pad decode depends only on the low 4 bits of
status byte 3; values 0–7 name the 8 compass directions in clockwise order
starting at up; any low-nibble value of 8 or more is neutral; for every
report of sufficient length the decode reads the D-pad from byte 3; and a
synthetic report with byte 1 = 0x08 decodes to exactly the button set with
only A pressed (in the neural driver's 16-bit word: exactly bit 0x0008). -/
theorem C7_dpad_and_a_button :
    (∀ b3 : ℕ, V0.decodeDPad b3 = V0.decodeDPad (b3 &&& 0x0F)) ∧
    (V0.decodeDPad 0 = V0.DPad.up ∧ V0.decodeDPad 1 = V0.DPad.upRight ∧
     V0.decodeDPad 2 = V0.DPad.right ∧ V0.decodeDPad 3 = V0.DPad.downRight ∧
     V0.decodeDPad 4 = V0.DPad.down ∧ V0.decodeDPad 5 = V0.DPad.downLeft ∧
     V0.decodeDPad 6 = V0.DPad.left ∧ V0.decodeDPad 7 = V0.DPad.upLeft) ∧
    (∀ b3 : ℕ, 8 ≤ b3 &&& 0x0F → V0.decodeDPad b3 = V0.DPad.neutral) ∧
    (∀ report : List ℕ, 3 ≤ report.length →
      V0.decodeReport report =
        some (V0.decodeButtonSet (report.getD 1 0) (report.getD 2 0) (report.getD 3 0),
              V0.decodeDPad (report.getD 3 0))) ∧
    V0.decodeReport [0, 0x08, 0, 0] =
      some (⟨true, false, false, false, false, false, false, false,
             false, false, false, false, false, false⟩, V0.DPad.up) ∧
    SwitchPro.decodeButtons 0x08 0 = 0x0008 := by
  refine ⟨V0.decodeDPad_low_nibble,
    ⟨rfl, rfl, rfl, rfl, rfl, rfl, rfl, rfl⟩,
    V0.decodeDPad_neutral_of_ge8, ?_, by decide, by decide⟩
  intro report hlen
  unfold V0.decodeReport
  rw [if_neg (by omega)]

/-- C7 witness: the theorem instantiated at status byte `0x1C` (low nibble
12 ≥ 8, hence neutral). -/
theorem C7_witness : V0.decodeDPad 0x1C = V0.DPad.neutral :=
  C7_dpad_and_a_button.2.2.1 0x1C (by decide)

namespace SwitchPro

/-- C8 counterexample: in a run that restarts the pipeline (one sample at
t = 1000000 µs, disable, re-enable, one sample at t = 5000000 µs), the
first sample after the restart has time-delta element 4.0, not 0.0 — the
persistent last-timestamp is not reset by the restart — refuting the claim
that the delta is exactly 0.0 for the first sample after a restart. -/
theorem C8_counterexample :
    ((c8Run.featureQueue.getD 1 []).getD 16 0) = 4 ∧
    ((c8Run.featureQueue.getD 1 []).getD 16 0) ≠ 0 := by
  have h4 : ((c8Run.featureQueue.getD 1 []).getD 16 0) = 4 := by
    simp [c8Run, runOps, applyOp, processInputReport, extractFeatures,
      enableNeuralProcessing, enqueueFeature, initialDriver, createFeatureVector,
      decodeButtons, List.foldl, initialState, u64sub]
    norm_num
  exact ⟨h4, by rw [h4]; norm_num⟩

/-- C8 (amended): the time-delta element (index 16) is exactly 0.0 whenever
the persistent last-timestamp is still its initial 0 — i.e. for the first
sample ever derived, but NOT for the first sample after a disable/enable
restart, which keeps the old last-timestamp (see the counterexample); for
later samples with `last ≤ t < 2^64` it equals `(t − last)/1000000`
seconds (timestamps are in microseconds, so samples 16000 µs apart give
exactly 0.016); and it is never negative for any inputs at all. -/
theorem C8_time_delta (s : ControllerState) (last : ℕ)
    (hlast : 0 < last) (hle : last ≤ s.timestamp) (hbound : s.timestamp < 2 ^ 64) :
    (createFeatureVector s 0).getD 16 0 = 0 ∧
    (createFeatureVector s last).getD 16 0 = ((s.timestamp - last : ℕ) : ℝ) / 1000000 ∧
    ∀ (s' : ControllerState) (last' : ℕ), 0 ≤ (createFeatureVector s' last').getD 16 0 := by
  refine ⟨by rw [createFeatureVector_getD16]; simp, ?_, ?_⟩
  · have hmod : last % 2 ^ 64 = last := Nat.mod_eq_of_lt (lt_of_le_of_lt hle hbound)
    have hsub : u64sub s.timestamp last = s.timestamp - last := by
      unfold u64sub
      rw [hmod]
      have heq : s.timestamp + (2 ^ 64 - last) = (s.timestamp - last) + 2 ^ 64 := by omega
      rw [heq, Nat.add_mod_right, Nat.mod_eq_of_lt (by omega)]
    rw [createFeatureVector_getD16, if_pos hlast, hsub]
  · intro s' last'
    rw [createFeatureVector_getD16]
    split
    · positivity
    · exact le_refl 0

/-- C8 witness: two samples 16000 µs apart yield a delta of
16000/1000000 = 0.016 seconds. -/
theorem C8_witness :
    (createFeatureVector { initialState with timestamp := 32000 } 16000).getD 16 0 =
      ((32000 - 16000 : ℕ) : ℝ) / 1000000 :=
  (C8_time_delta { initialState with timestamp := 32000 } 16000 (by norm_num) (by norm_num)
    (by norm_num)).2.1

/-- C9: the decoder never writes the trigger fields, so after any sequence
of operations from the fresh driver they still hold their initial zero, and
every feature vector in the queue has exactly 0.0 at its trigger elements,
indices 4 and 5. -/
theorem C9_triggers_always_zero (ops : List DriverOp) :
    (runOps initialDriver ops).currentState.triggerL = 0 ∧
    (runOps initialDriver ops).currentState.triggerR = 0 ∧
    ∀ v ∈ (runOps initialDriver ops).featureQueue,
      v.getD 4 0 = 0 ∧ v.getD 5 0 = 0 := by
  obtain ⟨-, h1, h2, h3⟩ := runOps_inv initialDriver_inv ops
  exact ⟨h1, h2, fun v hv => ⟨(h3 v hv).2.1, (h3 v hv).2.2⟩⟩

/-- C10: with feature processing disabled, processing a (full-length) input
report leaves the feature queue and the persistent last-timestamp untouched
— nothing is enqueued and nothing evicted — while the current state is
still updated from the report: timestamp, decoded button word, and the four
normalized stick axes. -/
theorem C10_disabled_keeps_queue (d : DriverState) (report : List ℕ) (now : ℕ)
    (hdis : d.processingEnabled = false) (hlen : 12 < report.length) :
    (processInputReport d report now).featureQueue = d.featureQueue ∧
    (processInputReport d report now).lastTimestamp = d.lastTimestamp ∧
    (processInputReport d report now).processingEnabled = false ∧
    (processInputReport d report now).connectedDevice = d.connectedDevice ∧
    (processInputReport d report now).currentState.timestamp = now ∧
    (processInputReport d report now).currentState.buttons =
      decodeButtons (report.getD 1 0) (report.getD 3 0) ∧
    (processInputReport d report now).currentState.leftStickX = (report.getD 6 0 : ℚ) / 255 ∧
    (processInputReport d report now).currentState.leftStickY = (report.getD 8 0 : ℚ) / 255 ∧
    (processInputReport d report now).currentState.rightStickX = (report.getD 10 0 : ℚ) / 255 ∧
    (processInputReport d report now).currentState.rightStickY = (report.getD 12 0 : ℚ) / 255 := by
  have h3 : ¬ report.length < 3 := by omega
  have h8 : 8 < report.length := by omega
  unfold processInputReport extractFeatures
  simp [h3, h8, hlen, hdis]

/-- C10 witness: the fresh driver (processing disabled) with a 14-byte
report keeps its empty queue. -/
theorem C10_witness :
    (processInputReport initialDriver (List.replicate 14 0) 7).featureQueue =
      initialDriver.featureQueue :=
  (C10_disabled_keeps_queue initialDriver (List.replicate 14 0) 7 rfl (by simp)).1

end SwitchPro
